import Mathlib

set_option maxHeartbeats 1000000

/-
Shallow embedding of src/comments/views.py (vas3k.club comment endpoints):
create_comment, edit_comment, delete_comment, pin_comment, upvote_comment.
Handlers carry @auth_required, so each Lean function takes the authenticated
actor (request.me) as an explicit argument.  Model-layer helpers that live
outside src/ (Comment.delete, Comment.undelete, CommentVote.upvote, the
CommentForm internals, Comment.check_rate_limits) are modelled from the spec
and marked as such in their doc comments.
-/

namespace Vas3k

/-- Authenticated user as the handlers see it: request.me with its moderator flag. -/
structure User where
  id : Nat
  is_moderator : Bool
deriving DecidableEq, Repr

/-- Post record: the fields of posts.models.Post that the comment handlers read.
The author field holds the id of the post author. -/
structure Post where
  slug : String
  author : Nat
  is_commentable : Bool
  is_visible : Bool
deriving DecidableEq, Repr

/-- Comment record: the fields of comments.models.Comment the handlers read or write.
author is nullable (a user id when set); html is the cached rendered form;
is_editable is the time-windowed editability flag computed by the model layer. -/
structure Comment where
  id : Nat
  post : Post
  author : Option Nat
  text : String
  html : Option String
  reply_to_id : Option Nat
  is_deleted : Bool
  deleted_by : Option Nat
  is_pinned : Bool
  is_editable : Bool
  upvotes : Nat
  ipaddress : String
  useragent : String
deriving DecidableEq, Repr

/-- Error kinds the handlers raise: AccessDenied and RateLimitException from
club.exceptions (both with user-facing text), and the raised Http404 of the
upvote endpoint. -/
inductive ClubError where
  | accessDenied (title : Option String) (message : Option String)
  | rateLimit (title : String) (message : String)
  | http404
deriving DecidableEq, Repr

/-- True exactly on the AccessDenied error kind. -/
def ClubError.isAccessDenied : ClubError → Bool
  | ClubError.accessDenied _ _ => true
  | _ => false

/-- True exactly on the RateLimitException error kind. -/
def ClubError.isRateLimit : ClubError → Bool
  | ClubError.rateLimit _ _ => true
  | _ => false

/-- Incoming request data the handlers consume besides the actor: HTTP method
and the client metadata extracted by parse_ip_address / parse_useragent. -/
structure Request where
  method : String
  ipaddress : String
  useragent : String
deriving DecidableEq, Repr

/-- Modelled from the spec: comments.forms.CommentForm (not in scope).  A bound
form over submitted data: a validity verdict, the submitted text, an optional
preset author and the optional reply_to_id from cleaned_data. -/
structure CommentForm where
  is_valid : Bool
  text : String
  author : Option Nat
  reply_to_id : Option Nat
deriving DecidableEq, Repr

/-- Modelled from the spec: form.cleaned_data.get of the text field — the user
original unsaved text, echoed back on validation failure so it is not lost. -/
def CommentForm.cleanedText (f : CommentForm) : Option String :=
  some f.text

/-- Modelled from the spec: form.save(commit=False) with no instance — builds an
unsaved Comment from the form data; the view then assigns post, author default
and client metadata before persisting.  The placeholder post is overwritten by
the view before the comment is saved. -/
def CommentForm.saveNew (f : CommentForm) (new_id : Nat) : Comment :=
  { id := new_id
    post := { slug := "", author := 0, is_commentable := true, is_visible := true }
    author := f.author
    text := f.text
    html := none
    reply_to_id := none
    is_deleted := false
    deleted_by := none
    is_pinned := false
    is_editable := true
    upvotes := 0
    ipaddress := ""
    useragent := "" }

/-- Modelled from the spec: form.save(commit=False) on an existing instance —
updates the comment content from the validated form data. -/
def CommentForm.saveInstance (f : CommentForm) (c : Comment) : Comment :=
  { c with text := f.text }

/-- Modelled from the spec: Comment.delete(deleted_by=...) (comments/models.py,
not in scope) — soft delete: retains content, marks the comment deleted and
records who deleted it. -/
def Comment.softDelete (c : Comment) (deleter : User) : Comment :=
  { c with is_deleted := true, deleted_by := some deleter.id }

/-- Modelled from the spec: Comment.undelete (comments/models.py, not in scope)
— restores the comment to active state, content intact. -/
def Comment.undelete (c : Comment) : Comment :=
  { c with is_deleted := false }

/-- Vote record: comments.models.CommentVote joins a user and a comment,
at most one per pair. -/
structure CommentVote where
  user : Nat
  comment : Nat
deriving DecidableEq, Repr

/-- Modelled from the spec: CommentVote.upvote (comments/models.py, not in
scope) — idempotent create of a vote record for (user, comment); increments the
comment stored upvote counter only when the record is newly created; returns
the created flag. -/
def CommentVote.upvote (user : User) (comment : Comment) (votes : List CommentVote) :
    List CommentVote × Comment × Bool :=
  if CommentVote.mk user.id comment.id ∈ votes then
    (votes, comment, false)
  else
    (CommentVote.mk user.id comment.id :: votes,
     { comment with upvotes := comment.upvotes + 1 }, true)

/-- Synchronous side effects the views trigger besides mutating the comment
itself, identified by acting user id and post slug. -/
inductive Effect where
  | updateLastActivity (user : Nat)
  | updatePostCounters (post_slug : String)
  | incrementUnreadComments (post_slug : String)
  | postViewCreateOrUpdate (user : Nat) (post_slug : String)
deriving DecidableEq, Repr

/-- Result of create_comment when no exception is raised: the redirect to the
new comment, the rendered error page with the preserved draft text, or the
Http404 value returned (not raised) on a non-POST request. -/
inductive CreateResult where
  | redirectToComment (post_slug : String) (comment_id : Nat)
  | errorPage (title : String) (message : String) (data : Option String)
  | http404Page
deriving DecidableEq, Repr

/-- Full outcome of create_comment: the response, the comment persisted by this
request if any, and the side effects triggered, in order. -/
structure CreateOutcome where
  result : CreateResult
  saved : Option Comment
  effects : List Effect
deriving DecidableEq, Repr

/-- create_comment (src/comments/views.py lines 13-63).  rate_limit_ok stands
for Comment.check_rate_limits(request.me); new_id is the id the database
assigns to the saved comment. -/
def create_comment (me : User) (post : Post) (request : Request)
    (form : CommentForm) (rate_limit_ok : Bool) (new_id : Nat) :
    Except ClubError CreateOutcome :=
  if post.is_commentable = false ∧ me.is_moderator = false then
    Except.error (ClubError.accessDenied (some "Комментарии к этому посту закрыты") none)
  else if request.method = "POST" then
    if form.is_valid then
      if rate_limit_ok = false then
        Except.error (ClubError.rateLimit
          "🙅‍♂️ Вы комментируете слишком часто"
          "Подождите немного, вы достигли нашего лимита на комментарии в день. Можете написать нам в саппорт, пожаловаться об этом.")
      else
        let c0 := form.saveNew new_id
        let c1 := { c0 with post := post }
        let c2 := if c1.author = none then { c1 with author := some me.id } else c1
        let c3 := { c2 with ipaddress := request.ipaddress, useragent := request.useragent }
        let c4 := match form.reply_to_id with
          | some r => { c3 with reply_to_id := some r }
          | none => c3
        Except.ok
          { result := CreateResult.redirectToComment post.slug c4.id
            saved := some c4
            effects :=
              [ Effect.updateLastActivity me.id
              , Effect.updatePostCounters post.slug
              , Effect.incrementUnreadComments post.slug
              , Effect.postViewCreateOrUpdate me.id post.slug ] }
    else
      Except.ok
        { result := CreateResult.errorPage
            "Какая-то ошибка при публикации комментария 🤷‍♂️"
            "Не знаем что происходит, но мы уже фиксим. Мы сохранили ваш коммент чтобы вы не потеряли его:"
            form.cleanedText
          saved := none
          effects := [] }
  else
    Except.ok { result := CreateResult.http404Page, saved := none, effects := [] }

/-- Result of edit_comment when no exception is raised: redirect on a
successful save, or the rendered edit page otherwise. -/
inductive EditResult where
  | redirectToComment (post_slug : String) (comment_id : Nat)
  | renderEditPage
deriving DecidableEq, Repr

/-- Full outcome of edit_comment: the response and the comment persisted by
this request, if any. -/
structure EditOutcome where
  result : EditResult
  saved : Option Comment
deriving DecidableEq, Repr

/-- edit_comment (src/comments/views.py lines 73-106). -/
def edit_comment (me : User) (comment : Comment) (request : Request)
    (form : CommentForm) : Except ClubError EditOutcome :=
  if me.is_moderator = false ∧ comment.author ≠ some me.id then
    Except.error (ClubError.accessDenied none none)
  else if me.is_moderator = false ∧ comment.is_editable = false then
    Except.error (ClubError.accessDenied (some "Этот комментарий больше нельзя редактировать") none)
  else if me.is_moderator = false ∧ (comment.post.is_visible = false ∨ comment.post.is_commentable = false) then
    Except.error (ClubError.accessDenied (some "Комментарии к этому посту были закрыты") none)
  else if request.method = "POST" ∧ form.is_valid = true then
    let c1 := form.saveInstance comment
    let c2 := { c1 with
      is_deleted := false
      html := none
      ipaddress := request.ipaddress
      useragent := request.useragent }
    Except.ok
      { result := EditResult.redirectToComment comment.post.slug c2.id
        saved := some c2 }
  else
    Except.ok { result := EditResult.renderEditPage, saved := none }

/-- Full outcome of delete_comment: the comment state persisted (soft deleted
or restored), the side effects triggered, and the redirect target. -/
structure DeleteOutcome where
  comment : Comment
  effects : List Effect
  redirect_slug : String
  redirect_comment_id : Nat
deriving DecidableEq, Repr

/-- delete_comment (src/comments/views.py lines 110-148): toggles soft delete.
The three guards of the non-moderator gauntlet are translated with their
early-return structure flattened into an if-else chain. -/
def delete_comment (me : User) (comment : Comment) : Except ClubError DeleteOutcome :=
  if me.is_moderator = false ∧ (comment.author ≠ some me.id ∧ me.id ≠ comment.post.author) then
    Except.error (ClubError.accessDenied (some "Нельзя!")
      (some "Только автор комментария, поста или модератор может удалить комментарий"))
  else if me.is_moderator = false ∧ comment.is_editable = false then
    Except.error (ClubError.accessDenied (some "Время вышло")
      (some "Комментарий можно отредактировать или удалить только в первые несколько часов их жизни"))
  else if me.is_moderator = false ∧ comment.post.is_visible = false then
    Except.error (ClubError.accessDenied (some "Пост скрыт!")
      (some "Нельзя удалять комментарии к скрытому посту"))
  else if comment.is_deleted = false then
    let c := comment.softDelete me
    Except.ok
      { comment := c
        effects := [Effect.updatePostCounters c.post.slug]
        redirect_slug := c.post.slug
        redirect_comment_id := c.id }
  else if comment.deleted_by = some me.id ∨ me.is_moderator = true then
    let c := comment.undelete
    Except.ok
      { comment := c
        effects := [Effect.updatePostCounters c.post.slug]
        redirect_slug := c.post.slug
        redirect_comment_id := c.id }
  else
    Except.error (ClubError.accessDenied (some "Нельзя!")
      (some "Только тот, кто удалил комментарий, может его восстановить"))

/-- Full outcome of pin_comment: the comment persisted with its pinned flag
toggled, and the redirect target. -/
structure PinOutcome where
  comment : Comment
  redirect_slug : String
  redirect_comment_id : Nat
deriving DecidableEq, Repr

/-- pin_comment (src/comments/views.py lines 151-164): toggles is_pinned. -/
def pin_comment (me : User) (comment : Comment) : Except ClubError PinOutcome :=
  if me.is_moderator = false ∧ comment.post.author ≠ me.id then
    Except.error (ClubError.accessDenied (some "Нельзя!")
      (some "Только автор поста или модератор может пинить посты"))
  else
    let c := { comment with is_pinned := !comment.is_pinned }
    Except.ok
      { comment := c
        redirect_slug := c.post.slug
        redirect_comment_id := c.id }

/-- Full outcome of upvote_comment: the vote records and the stored comment
after the call, plus the upvote count reported in the JSON response (computed
from the comment as fetched, plus one only if the vote was newly created). -/
structure UpvoteOutcome where
  votes : List CommentVote
  comment : Comment
  response_upvotes : Nat
deriving DecidableEq, Repr

/-- upvote_comment (src/comments/views.py lines 167-185). -/
def upvote_comment (request : Request) (me : User) (comment : Comment)
    (votes : List CommentVote) : Except ClubError UpvoteOutcome :=
  if request.method ≠ "POST" then
    Except.error ClubError.http404
  else
    match CommentVote.upvote me comment votes with
    | (votes2, stored, is_created) =>
      Except.ok
        { votes := votes2
          comment := stored
          response_upvotes := comment.upvotes + (if is_created then 1 else 0) }

/-! Concrete fixtures used by witnesses and counterexamples. -/

/-- Fixture: a non-moderator user. -/
def uAlice : User := { id := 1, is_moderator := false }

/-- Fixture: a second non-moderator user, author of the fixture posts. -/
def uBob : User := { id := 2, is_moderator := false }

/-- Fixture: a moderator. -/
def uMod : User := { id := 100, is_moderator := true }

/-- Fixture: a visible, commentable post authored by uBob. -/
def pOpen : Post := { slug := "open-post", author := 2, is_commentable := true, is_visible := true }

/-- Fixture: a visible post with comments closed, authored by uBob. -/
def pClosed : Post := { slug := "closed-post", author := 2, is_commentable := false, is_visible := true }

/-- Fixture: a hidden but commentable post authored by uBob. -/
def pHidden : Post := { slug := "hidden-post", author := 2, is_commentable := true, is_visible := false }

/-- Fixture: an active, editable comment by uAlice on pOpen, with a cached
rendered form and three upvotes. -/
def cBase : Comment :=
  { id := 10, post := pOpen, author := some 1, text := "hello", html := some "cached"
    reply_to_id := none, is_deleted := false, deleted_by := none, is_pinned := false
    is_editable := true, upvotes := 3, ipaddress := "ip0", useragent := "ua0" }

/-- Fixture: the same comment placed on the hidden post. -/
def cHidden : Comment := { cBase with post := pHidden }

/-- Fixture: the base comment soft-deleted by uBob. -/
def cDelByBob : Comment := { cBase with is_deleted := true, deleted_by := some 2 }

/-- Fixture: a POST request. -/
def reqPost : Request := { method := "POST", ipaddress := "1.2.3.4", useragent := "browser" }

/-- Fixture: a GET request. -/
def reqGet : Request := { method := "GET", ipaddress := "1.2.3.4", useragent := "browser" }

/-- Fixture: a form that passes validation. -/
def formOk : CommentForm := { is_valid := true, text := "new text", author := none, reply_to_id := none }

/-- Fixture: a form that fails validation, holding the draft text. -/
def formBad : CommentForm := { is_valid := false, text := "draft text", author := none, reply_to_id := none }

/-- Claim C1 counterexample: uAlice, a non-moderator, is the author of the
active, still-editable comment cHidden, so the claimed success condition (actor
is the comment author and the comment is within its editable time window)
holds; yet delete_comment denies the request with AccessDenied because the
post is hidden — the code checks post visibility for the comment author too,
not only for the post author. -/
theorem claim1_counterexample :
    (uAlice.is_moderator = false ∧ cHidden.author = some uAlice.id ∧
      cHidden.is_editable = true ∧ cHidden.is_deleted = false) ∧
    delete_comment uAlice cHidden =
      Except.error (ClubError.accessDenied (some "Пост скрыт!")
        (some "Нельзя удалять комментарии к скрытому посту")) := by
  exact ⟨⟨rfl, rfl, rfl, rfl⟩, rfl⟩

/-- Claim C1 (amended): for every active comment C and authenticated actor A,
the delete operation succeeds — marking C deleted and recording A as deleter —
if A is a moderator, or if A is C's author or the post's author AND C is within
its editable time window AND the post is visible; in every other case it fails
with AccessDenied. -/
theorem claim1_delete_active (me : User) (c : Comment) (h : c.is_deleted = false) :
    ((me.is_moderator = true ∨
        ((c.author = some me.id ∨ me.id = c.post.author) ∧
          c.is_editable = true ∧ c.post.is_visible = true)) →
      ∃ out, delete_comment me c = Except.ok out ∧
        out.comment.is_deleted = true ∧ out.comment.deleted_by = some me.id) ∧
    (¬(me.is_moderator = true ∨
        ((c.author = some me.id ∨ me.id = c.post.author) ∧
          c.is_editable = true ∧ c.post.is_visible = true)) →
      ∃ e, delete_comment me c = Except.error e ∧ e.isAccessDenied = true) := by
  unfold delete_comment
  split_ifs with g1 g2 g3 g4 g5 <;>
    constructor <;>
    intro hcond <;>
    simp_all [Comment.softDelete, Comment.undelete, ClubError.isAccessDenied] <;>
    tauto

/-- Claim C1 witness: a moderator deletes the active fixture comment. -/
theorem claim1_witness :
    ∃ out, delete_comment uMod cBase = Except.ok out ∧
      out.comment.is_deleted = true ∧ out.comment.deleted_by = some uMod.id :=
  (claim1_delete_active uMod cBase rfl).1 (Or.inl rfl)

/-- Claim C2: for every deleted comment C and authenticated actor A, the delete
endpoint (undelete branch) succeeds only if A is a moderator or the user
recorded as having performed the delete; any other actor fails with
AccessDenied. -/
theorem claim2_undelete_auth (me : User) (c : Comment) (h : c.is_deleted = true) :
    (∀ out, delete_comment me c = Except.ok out →
      me.is_moderator = true ∨ c.deleted_by = some me.id) ∧
    (¬(me.is_moderator = true ∨ c.deleted_by = some me.id) →
      ∃ e, delete_comment me c = Except.error e ∧ e.isAccessDenied = true) := by
  unfold delete_comment
  split_ifs with g1 g2 g3 g4 g5 <;>
    constructor <;>
    first
      | (intro out hout; simp_all) <;> tauto
      | (intro hcond; simp_all [ClubError.isAccessDenied]) <;> tauto

/-- Claim C2 witness: uAlice, neither a moderator nor the recorded deleter,
cannot undelete the comment uBob deleted. -/
theorem claim2_witness :
    ∃ e, delete_comment uAlice cDelByBob = Except.error e ∧ e.isAccessDenied = true :=
  (claim2_undelete_auth uAlice cDelByBob rfl).2 (by decide)

/-- Claim C3: for every comment C and actor A authorized to delete C, delete
followed by undelete by the same actor, with no intervening mutation, restores
C to active state with its original content intact. -/
theorem claim3_delete_undelete_roundtrip (me : User) (c : Comment) (out : DeleteOutcome)
    (h : c.is_deleted = false) (hdel : delete_comment me c = Except.ok out) :
    ∃ out2, delete_comment me out.comment = Except.ok out2 ∧
      out2.comment.is_deleted = false ∧ out2.comment.text = c.text := by
  unfold delete_comment at hdel
  split_ifs at hdel with g1 g2 g3 g4 g5
  · injection hdel with h1
    subst h1
    unfold delete_comment
    simp only [Comment.softDelete, Comment.undelete]
    split_ifs with k1 k2 k3 k4 k5 <;> simp_all <;> tauto

/-- Claim C3 witness: uAlice deletes then undeletes her own comment; the text
survives the round trip. -/
theorem claim3_witness :
    ∃ out2, delete_comment uAlice (Comment.softDelete cBase uAlice) = Except.ok out2 ∧
      out2.comment.is_deleted = false ∧ out2.comment.text = cBase.text :=
  claim3_delete_undelete_roundtrip uAlice cBase
    { comment := Comment.softDelete cBase uAlice
      effects := [Effect.updatePostCounters pOpen.slug]
      redirect_slug := pOpen.slug
      redirect_comment_id := 10 } rfl rfl

/-- Claim C9: every successful invocation of the delete endpoint — the delete
branch and the undelete branch alike — records the post-counter recomputation
side effect for the comment post before redirecting. -/
theorem claim9_counters_on_delete (me : User) (c : Comment) (out : DeleteOutcome)
    (h : delete_comment me c = Except.ok out) :
    Effect.updatePostCounters out.comment.post.slug ∈ out.effects := by
  unfold delete_comment at h
  split_ifs at h <;>
    (injection h with h1; subst h1; simp [Comment.softDelete, Comment.undelete])

/-- Claim C9 witness: the moderator delete of the fixture comment records the
counter update effect. -/
theorem claim9_witness :
    Effect.updatePostCounters
        (({ comment := Comment.softDelete cBase uMod
            effects := [Effect.updatePostCounters pOpen.slug]
            redirect_slug := pOpen.slug
            redirect_comment_id := 10 } : DeleteOutcome).comment.post.slug) ∈
      ({ comment := Comment.softDelete cBase uMod
         effects := [Effect.updatePostCounters pOpen.slug]
         redirect_slug := pOpen.slug
         redirect_comment_id := 10 } : DeleteOutcome).effects :=
  claim9_counters_on_delete uMod cBase _ rfl

/-- Claim C8: pin succeeds iff the actor is a moderator or the author of the
comment post, failing with AccessDenied otherwise; on success it flips the
pinned flag; and the outcome ignores the editable time window entirely. -/
theorem claim8_pin (me : User) (c : Comment) :
    ((∃ out, pin_comment me c = Except.ok out) ↔
      (me.is_moderator = true ∨ c.post.author = me.id)) ∧
    (∀ out, pin_comment me c = Except.ok out → out.comment.is_pinned = !c.is_pinned) ∧
    (¬(me.is_moderator = true ∨ c.post.author = me.id) →
      ∃ e, pin_comment me c = Except.error e ∧ e.isAccessDenied = true) ∧
    (∀ b, (∃ out, pin_comment me { c with is_editable := b } = Except.ok out) ↔
      (∃ out, pin_comment me c = Except.ok out)) := by
  refine ⟨?_, ?_, ?_, ?_⟩
  · unfold pin_comment
    split_ifs with g <;> cases hb : me.is_moderator <;> simp_all <;> tauto
  · intro out hout
    unfold pin_comment at hout
    split_ifs at hout with g
    injection hout with h1
    subst h1
    rfl
  · intro hno
    unfold pin_comment
    split_ifs with g <;> cases hb : me.is_moderator <;>
      simp_all [ClubError.isAccessDenied] <;> tauto
  · intro b
    unfold pin_comment
    split_ifs with g1 g2 <;> cases hb : me.is_moderator <;> simp_all <;> tauto

/-- Claim C8 witness: the post author uBob pins a comment on his post and the
pinned flag flips. -/
theorem claim8_witness : ∃ out, pin_comment uBob cBase = Except.ok out :=
  (claim8_pin uBob cBase).1.mpr (Or.inr rfl)

/-- Claim C4: when user U has no vote record for comment C yet, calling upvote
twice increments the stored counter by exactly one, not two; the first response
reports the incremented count and the second call reports no increment — it
returns the stored count unchanged. -/
theorem claim4_upvote_idempotent (request : Request) (me : User) (c : Comment)
    (votes : List CommentVote)
    (hm : request.method = "POST")
    (hnew : CommentVote.mk me.id c.id ∉ votes) :
    ∃ o1 o2, upvote_comment request me c votes = Except.ok o1 ∧
      upvote_comment request me o1.comment o1.votes = Except.ok o2 ∧
      o1.comment.upvotes = c.upvotes + 1 ∧
      o2.comment.upvotes = c.upvotes + 1 ∧
      o1.response_upvotes = c.upvotes + 1 ∧
      o2.response_upvotes = o1.comment.upvotes ∧
      o2.votes = o1.votes := by
  have h1 : upvote_comment request me c votes =
      Except.ok { votes := CommentVote.mk me.id c.id :: votes
                  comment := { c with upvotes := c.upvotes + 1 }
                  response_upvotes := c.upvotes + 1 } := by
    unfold upvote_comment CommentVote.upvote
    rw [if_neg (by simp [hm]), if_neg hnew]
    rfl
  have h2 : upvote_comment request me { c with upvotes := c.upvotes + 1 }
      (CommentVote.mk me.id c.id :: votes) =
      Except.ok { votes := CommentVote.mk me.id c.id :: votes
                  comment := { c with upvotes := c.upvotes + 1 }
                  response_upvotes := c.upvotes + 1 } := by
    unfold upvote_comment CommentVote.upvote
    rw [if_neg (by simp [hm]), if_pos (by simp)]
    rfl
  exact ⟨_, _, h1, h2, rfl, rfl, rfl, rfl, rfl⟩

/-- Claim C4 witness: uAlice upvotes the fixture comment twice starting from
no votes; the counter goes from 3 to 4 and stays there. -/
theorem claim4_witness :
    ∃ o1 o2, upvote_comment reqPost uAlice cBase [] = Except.ok o1 ∧
      upvote_comment reqPost uAlice o1.comment o1.votes = Except.ok o2 ∧
      o1.comment.upvotes = cBase.upvotes + 1 ∧
      o2.comment.upvotes = cBase.upvotes + 1 ∧
      o1.response_upvotes = cBase.upvotes + 1 ∧
      o2.response_upvotes = o1.comment.upvotes ∧
      o2.votes = o1.votes :=
  claim4_upvote_idempotent reqPost uAlice cBase [] rfl (by simp)

/-- Claim C5: creating a comment on a post with is_commentable = false fails
with AccessDenied for every non-moderator actor, and succeeds — persisting a
comment — for a moderator actor given a POST request, a valid form and a
passing rate-limit check. -/
theorem claim5_create_closed_post (me : User) (post : Post) (request : Request)
    (form : CommentForm) (rate_limit_ok : Bool) (new_id : Nat)
    (h : post.is_commentable = false) :
    (me.is_moderator = false →
      ∃ e, create_comment me post request form rate_limit_ok new_id = Except.error e ∧
        e.isAccessDenied = true) ∧
    (me.is_moderator = true → request.method = "POST" → form.is_valid = true →
      rate_limit_ok = true →
      ∃ o, create_comment me post request form rate_limit_ok new_id = Except.ok o ∧
        ∃ c, o.saved = some c) := by
  constructor
  · intro hmod
    unfold create_comment
    rw [if_pos ⟨h, hmod⟩]
    exact ⟨_, rfl, rfl⟩
  · intro hmod hpost hvalid hrate
    unfold create_comment
    rw [if_neg (by simp [hmod]), if_pos hpost, if_pos hvalid, if_neg (by simp [hrate])]
    exact ⟨_, rfl, _, rfl⟩

/-- Claim C5 witness: uAlice is denied on the closed fixture post while the
moderator gets a comment persisted there. -/
theorem claim5_witness :
    (∃ e, create_comment uAlice pClosed reqPost formOk true 42 = Except.error e ∧
      e.isAccessDenied = true) ∧
    (∃ o, create_comment uMod pClosed reqPost formOk true 42 = Except.ok o ∧
      ∃ c, o.saved = some c) :=
  ⟨(claim5_create_closed_post uAlice pClosed reqPost formOk true 42 rfl).1 rfl,
   (claim5_create_closed_post uMod pClosed reqPost formOk true 42 rfl).2 rfl rfl rfl rfl⟩

/-- Claim C7: when the submitted content fails validation (on a request that
passes the commentability gate), create_comment persists no comment, triggers
no side effects, and renders the error view carrying the user original
unsaved text. -/
theorem claim7_validation_preserves_draft (me : User) (post : Post) (request : Request)
    (form : CommentForm) (rate_limit_ok : Bool) (new_id : Nat)
    (hgate : post.is_commentable = true ∨ me.is_moderator = true)
    (hpost : request.method = "POST")
    (hval : form.is_valid = false) :
    ∃ t m, create_comment me post request form rate_limit_ok new_id =
      Except.ok { result := CreateResult.errorPage t m (some form.text)
                  saved := none
                  effects := [] } := by
  unfold create_comment
  rw [if_neg (by rcases hgate with hg | hg <;> simp [hg]), if_pos hpost]
  rw [if_neg (by simp [hval])]
  exact ⟨_, _, rfl⟩

/-- Claim C7 witness: an invalid form on the open fixture post renders the
error page with the draft text and persists nothing. -/
theorem claim7_witness :
    ∃ t m, create_comment uAlice pOpen reqPost formBad true 42 =
      Except.ok { result := CreateResult.errorPage t m (some formBad.text)
                  saved := none
                  effects := [] } :=
  claim7_validation_preserves_draft uAlice pOpen reqPost formBad true 42 (Or.inl rfl) rfl rfl

/-- Claim C10: on a commentable post, a create-comment request whose method is
not POST persists no comment, triggers no side effects, and yields the
not-found-class result. -/
theorem claim10_non_post_noop (me : User) (post : Post) (request : Request)
    (form : CommentForm) (rate_limit_ok : Bool) (new_id : Nat)
    (hc : post.is_commentable = true)
    (hm : request.method ≠ "POST") :
    create_comment me post request form rate_limit_ok new_id =
      Except.ok { result := CreateResult.http404Page, saved := none, effects := [] } := by
  unfold create_comment
  rw [if_neg (by simp [hc]), if_neg hm]

/-- Claim C10 witness: a GET request on the open fixture post yields the 404
result and persists nothing. -/
theorem claim10_witness :
    create_comment uAlice pOpen reqGet formOk true 42 =
      Except.ok { result := CreateResult.http404Page, saved := none, effects := [] } :=
  claim10_non_post_noop uAlice pOpen reqGet formOk true 42 rfl (by simp [reqGet])

/-- Fixture: the base comment with its edit window closed. -/
def cNotEditable : Comment := { cBase with is_editable := false }

/-- Claim C6: for a comment whose edit window has closed, editing fails with
AccessDenied when the actor is the (non-moderator) author but succeeds for a
moderator on a valid POST; and every successful edit clears the cached
rendered form, refreshes the client metadata, and un-deletes the comment. -/
theorem claim6_edit_window_closed (me : User) (c : Comment) (request : Request)
    (form : CommentForm) (h : c.is_editable = false) :
    (me.is_moderator = false → c.author = some me.id →
      ∃ e, edit_comment me c request form = Except.error e ∧ e.isAccessDenied = true) ∧
    (me.is_moderator = true → request.method = "POST" → form.is_valid = true →
      ∃ o c2, edit_comment me c request form = Except.ok o ∧ o.saved = some c2 ∧
        c2.html = none ∧ c2.is_deleted = false ∧
        c2.ipaddress = request.ipaddress ∧ c2.useragent = request.useragent) ∧
    (∀ o c2, edit_comment me c request form = Except.ok o → o.saved = some c2 →
      c2.html = none ∧ c2.is_deleted = false ∧
      c2.ipaddress = request.ipaddress ∧ c2.useragent = request.useragent) := by
  refine ⟨?_, ?_, ?_⟩
  · intro hmod hauth
    unfold edit_comment
    rw [if_neg (by simp [hauth]), if_pos ⟨hmod, h⟩]
    exact ⟨_, rfl, rfl⟩
  · intro hmod hpost hvalid
    unfold edit_comment
    rw [if_neg (by simp [hmod]), if_neg (by simp [hmod]), if_neg (by simp [hmod]),
        if_pos ⟨hpost, hvalid⟩]
    exact ⟨_, _, rfl, rfl, rfl, rfl, rfl, rfl⟩
  · intro o c2 ho hsaved
    unfold edit_comment at ho
    split_ifs at ho with g1 g2 g3 g4
    · injection ho with h1
      subst h1
      have h2 := Option.some.inj hsaved
      subst h2
      exact ⟨rfl, rfl, rfl, rfl⟩
    · injection ho with h1
      subst h1
      exact Option.noConfusion hsaved

/-- Claim C6 witness: the moderator edits the fixture comment whose edit
window is closed; the cache is cleared and the metadata refreshed. -/
theorem claim6_witness :
    ∃ o c2, edit_comment uMod cNotEditable reqPost formOk = Except.ok o ∧ o.saved = some c2 ∧
      c2.html = none ∧ c2.is_deleted = false ∧
      c2.ipaddress = reqPost.ipaddress ∧ c2.useragent = reqPost.useragent :=
  (claim6_edit_window_closed uMod cNotEditable reqPost formOk rfl).2.1 rfl rfl rfl

end Vas3k
